import Mathlib

/-!
Verification of `src/digitalocean/datasource_digitalocean_droplets.go`
(the `digitalocean_droplets` data source of the terraform provider).

The file shallowly embeds the two functions of the source,
`dataSourceDigitalOceanDropletsRead` (paginated fetch) and
`dropletsDecriptionAttributes` (flatten + store write), together with the
data they act on.  Go `int` / `float64` fields are embedded as `Int` resp.
an opaque bit-pattern type (the code only copies float values, it never
computes with them).  Go errors are embedded as their message strings.
Helpers of the provider that live in other files of the repository
(`findIPv4AddrByType`, `findIPv6AddrByType`,
`containsDigitalOceanDropletFeature`, `flattenDigitalOceanDropletVolumeIds`,
`flattenTags`) and the host framework's output store are modelled from the
spec, as marked on each definition.
-/

namespace DO

/-- Go `error` values, embedded as their message string (`err.Error()`). -/
abbrev GoErr := String

/-- Go `float64` values.  The routine under verification only copies them
verbatim (droplet prices), so they are embedded as opaque bit patterns. -/
abbrev Float64 := Nat

/-- One entry of `godo.Droplet.Networks.V4`: an IPv4 interface with an
address and a scope (`Type` is `"public"` or `"private"`). -/
structure NetworkV4 where
  ipAddress : String
  type : String
deriving DecidableEq

/-- One entry of `godo.Droplet.Networks.V6`. -/
structure NetworkV6 where
  ipAddress : String
  type : String
deriving DecidableEq

/-- Embeds `godo.Networks`: the droplet's interface lists, by family. -/
structure Networks where
  v4 : List NetworkV4
  v6 : List NetworkV6
deriving DecidableEq

/-- The region of a droplet (only the slug is read by this code). -/
structure Region where
  slug : String
deriving DecidableEq

/-- The size of a droplet (slug and the two prices are read). -/
structure Size where
  slug : String
  priceHourly : Float64
  priceMonthly : Float64
deriving DecidableEq

/-- The image of a droplet (numeric id and slug are read). -/
structure Image where
  id : Int
  slug : String
deriving DecidableEq

/-- Embeds `godo.Droplet`, restricted to the fields this data source reads.
`features` is an `Option` because the Go `[]string` slice distinguishes
`nil` from an empty slice and the code tests `droplet.Features != nil`. -/
structure Droplet where
  id : Int
  name : String
  region : Region
  image : Image
  size : Size
  disk : Int
  vcpus : Int
  memory : Int
  status : String
  locked : Bool
  networks : Networks
  features : Option (List String)
  volumeIDs : List String
  tags : List String
deriving DecidableEq

/-- Embeds `godo.Droplet.URN()`: the uniform resource name computed from the
resource kind and the numeric id. -/
def Droplet.urn (d : Droplet) : String :=
  "do:droplet:" ++ toString d.id

/-- A value stored in the output record (Go `interface\x7b\x7d`).  The
`strSet` constructor is the unordered-set container produced for
`volume_ids`; `tagsContainer` is the opaque container produced by the
external tag-flattening collaborator. -/
inductive Value where
  | str : String → Value
  | int : Int → Value
  | bool : Bool → Value
  | float : Float64 → Value
  | strSet : List String → Value
  | tagsContainer : List String → Value
deriving DecidableEq

/-- An output record (Go `map[string]interface\x7b\x7d`), embedded as an
association list; every key is inserted at most once by the code. -/
abbrev Record := List (String × Value)

/-- Lookup of a key in an output record. -/
def Record.find (r : Record) (k : String) : Option Value :=
  (r.find? (fun p => p.1 == k)).map (fun p => p.2)

/-- Modelled from the spec: `findIPv4AddrByType` lives in another file of
this repository.  Per the spec it searches the instance's v4 interface
list for the first entry with the given scope and yields its address,
returning the empty string when no entry matches. -/
def findIPv4AddrByType (d : Droplet) (addrType : String) : String :=
  match d.networks.v4.find? (fun n => n.type == addrType) with
  | some n => n.ipAddress
  | none => ""

/-- Modelled from the spec: `findIPv6AddrByType` lives in another file of
this repository.  Same search over the v6 interface list. -/
def findIPv6AddrByType (d : Droplet) (addrType : String) : String :=
  match d.networks.v6.find? (fun n => n.type == addrType) with
  | some n => n.ipAddress
  | none => ""

/-- Modelled from the spec: `containsDigitalOceanDropletFeature` lives in
another file of this repository.  Per the spec it tests whether the
literal flag name appears in the feature list. -/
def containsDigitalOceanDropletFeature (features : List String) (name : String) : Bool :=
  features.any (fun s => s == name)

/-- Modelled from the spec: `flattenDigitalOceanDropletVolumeIds` lives in
another file of this repository.  Per the spec it converts the
attached-volume id list to an unordered-set semantic container of strings
in which duplicates collapse. -/
def flattenDigitalOceanDropletVolumeIds (volumeIDs : List String) : Value :=
  .strSet volumeIDs.dedup

/-- Modelled from the spec: `flattenTags` is an external tag-flattening
collaborator whose shape is defined elsewhere; it is treated as an opaque
container of the tag list. -/
def flattenTags (tags : List String) : Value :=
  .tagsContainer tags

/-- The body of the `for _, droplet := range droplets` loop of
`dropletsDecriptionAttributes` (source lines 188-234): the flat output
record built for one droplet.  Each conditional `mapping[k] = v`
assignment of the source becomes one conditional segment, in source
order; the inserted keys are pairwise distinct, so the association list
represents the Go map exactly. -/
def dropletsMappingOf (droplet : Droplet) : Record :=
  let publicIPv4 := findIPv4AddrByType droplet "public"
  let privateIPv4 := findIPv4AddrByType droplet "private"
  let publicIPv6 := findIPv6AddrByType droplet "public"
  let privateIPv6 := findIPv6AddrByType droplet "private"
  [("name", .str droplet.name),
   ("urn", .str droplet.urn),
   ("region", .str droplet.region.slug),
   ("size", .str droplet.size.slug),
   ("price_hourly", .float droplet.size.priceHourly),
   ("price_monthly", .float droplet.size.priceMonthly),
   ("disk", .int droplet.disk),
   ("vcpus", .int droplet.vcpus),
   ("memory", .int droplet.memory),
   ("status", .str droplet.status),
   ("locked", .bool droplet.locked)]
  ++ (if droplet.image.slug = "" then [("image", .str (toString droplet.image.id))]
      else [("image", .str droplet.image.slug)])
  ++ (if publicIPv4 ≠ "" then [("ipv4_address", .str publicIPv4)] else [])
  ++ (if privateIPv4 ≠ "" then [("ipv4_address_private", .str privateIPv4)] else [])
  ++ (if publicIPv6 ≠ "" then [("ipv6_address", .str publicIPv6.toLower)] else [])
  ++ (if privateIPv6 ≠ "" then [("ipv6_address_private", .str privateIPv6.toLower)] else [])
  ++ (match droplet.features with
      | some features =>
          [("backups", .bool (containsDigitalOceanDropletFeature features "backups")),
           ("ipv6", .bool (containsDigitalOceanDropletFeature features "ipv6")),
           ("private_networking",
             .bool (containsDigitalOceanDropletFeature features "private_networking")),
           ("monitoring", .bool (containsDigitalOceanDropletFeature features "monitoring"))]
      | none => [])
  ++ [("volume_ids", flattenDigitalOceanDropletVolumeIds droplet.volumeIDs)]
  ++ [("tags", flattenTags droplet.tags)]

instance : DecidableEq (Except GoErr Int) := fun a b =>
  match a, b with
  | .error a, .error b => if h : a = b then .isTrue (by rw [h]) else .isFalse (by simp [h])
  | .error _, .ok _ => .isFalse (by simp)
  | .ok _, .error _ => .isFalse (by simp)
  | .ok a, .ok b => if h : a = b then .isTrue (by rw [h]) else .isFalse (by simp [h])

/-- Embeds `godo.Links`: pagination metadata of a response.  `IsLastPage()` is a
pure observation of the links; `CurrentPage()` parses the current page
number from the links and can fail, so it is embedded as the
`Except` value it would produce. -/
structure Links where
  isLastPage : Bool
  currentPage : Except GoErr Int
deriving DecidableEq

/-- Embeds `godo.Response`, restricted to the field this code reads: the Go
`resp.Links` pointer is nil-able, hence the `Option`. -/
structure Response where
  links : Option Links
deriving DecidableEq

/-- Embeds `godo.ListOptions`: the paging options sent with each list request. -/
structure ListOptions where
  page : Int
  perPage : Int
deriving DecidableEq

/-- Result of the pagination loop.  `diverge` is the fuel-exhaustion
marker of the embedding: the Go loop is unbounded, so every terminating
run is reproduced exactly by any sufficiently large fuel. -/
inductive FetchOutcome where
  | ok : List Droplet → FetchOutcome
  | err : GoErr → FetchOutcome
  | diverge : FetchOutcome
deriving DecidableEq

/-- Embeds the `for` loop of `dataSourceDigitalOceanDropletsRead` (source lines
159-180).  `api` is `client.Droplets.ListByTag` already applied to the
tag.  Besides the Go loop's outcome the embedding also returns the list
of paging options it sent, in order (ghost instrumentation: the Go code
issues these requests but records no trace). -/
def fetchLoop (api : ListOptions → Except GoErr (List Droplet × Response)) :
    Nat → ListOptions → List Droplet → List ListOptions × FetchOutcome
  | 0, _, _ => ([], .diverge)
  | fuel + 1, opts, dropletList =>
    match api opts with
    | .error e => ([opts], .err ("Error retrieving droplets: " ++ e))
    | .ok (droplets, resp) =>
      let dropletList := dropletList ++ droplets
      match resp.links with
      | none => ([opts], .ok dropletList)
      | some links =>
        if links.isLastPage then ([opts], .ok dropletList)
        else
          match links.currentPage with
          | .error e => ([opts], .err ("Error retrieving droplets: " ++ e))
          | .ok page =>
            let rest := fetchLoop api fuel { opts with page := page + 1 } dropletList
            (opts :: rest.1, rest.2)

/-- Modelled from the spec: the host framework's output store consumed by
the routine, `set(key, value) -> error` and `generateUniqueId() -> string`.
`uniqueId` is the fresh opaque identifier `resource.UniqueId()` returns in
this run; `setDropletsErr` gives the error, if any, that
`d.Set("droplets", s)` reports for a value (e.g. a shape-validation
failure); a failing set leaves the stored value unchanged. -/
structure Framework where
  uniqueId : String
  setDropletsErr : List Record → Option GoErr

/-- Modelled from the spec: the mutable output state of the framework's
store (`schema.ResourceData`), restricted to what the routine writes: the
snapshot identifier and the value stored under the `droplets` key. -/
structure Store where
  id : Option String
  droplets : Option (List Record)
deriving DecidableEq

/-- A store operation performed by the routine (ghost trace of calls to
the framework store; `setDroplets` is recorded whenever `d.Set` is
invoked, whether or not it succeeds). -/
inductive StoreOp where
  | setId : String → StoreOp
  | setDroplets : List Record → StoreOp
deriving DecidableEq

/-- Embeds `dropletsDecriptionAttributes` (source lines 185-244): flattens every
droplet in order, assigns a fresh unique id to the snapshot, stores the
list under `droplets` and returns the store error verbatim if the write
fails.  Returns the final store state, the trace of store operations and
the returned Go error. -/
def dropletsDecriptionAttributes (fw : Framework) (st : Store) (droplets : List Droplet) :
    Store × List StoreOp × Option GoErr :=
  let s := droplets.foldl (fun s droplet => s ++ [dropletsMappingOf droplet]) []
  let st := { st with id := some fw.uniqueId }
  match fw.setDropletsErr s with
  | some e => (st, [.setId fw.uniqueId, .setDroplets s], some e)
  | none => ({ st with droplets := some s }, [.setId fw.uniqueId, .setDroplets s], none)

/-- Final observation of one run of the read routine. -/
structure ReadResult where
  store : Store
  storeOps : List StoreOp
  pageRequests : List ListOptions
  err : Option GoErr
deriving DecidableEq

/-- Embeds `dataSourceDigitalOceanDropletsRead` (source lines 147-183): fetches
all pages starting from page 1 with per-page 200, then flattens and
stores.  `api` is `client.Droplets.ListByTag` (taking the tag and the
options), `tag` is `d.Get("tag")`, `st` the store state on entry.
`none` means the run did not terminate within `fuel` iterations. -/
def dataSourceDigitalOceanDropletsRead
    (api : String → ListOptions → Except GoErr (List Droplet × Response))
    (fuel : Nat) (fw : Framework) (st : Store) (tag : String) : Option ReadResult :=
  let opts : ListOptions := { page := 1, perPage := 200 }
  match fetchLoop (api tag) fuel opts [] with
  | (_, .diverge) => none
  | (trace, .err e) => some { store := st, storeOps := [], pageRequests := trace, err := some e }
  | (trace, .ok dropletList) =>
    let res := dropletsDecriptionAttributes fw st dropletList
    some { store := res.1, storeOps := res.2.1, pageRequests := trace, err := res.2.2 }

/-- One page as served by the API in a run: its droplet list and the
pagination metadata of its response. -/
structure PageData where
  droplets : List Droplet
  links : Option Links
deriving DecidableEq

/-- Holds when a page's response stops the loop: no links, or the links
flag the page as last. -/
def isTerminal (p : PageData) : Bool :=
  match p.links with
  | none => true
  | some links => links.isLastPage

/-- A run of `N` honestly numbered pages: every page before the last
reports itself as current page `i` (1-based) and not last, and page `N`
is terminal. -/
def honestRun (pages : List PageData) : Bool :=
  (List.range pages.length).all fun i =>
    match pages.get? i with
    | none => false
    | some p =>
      if i + 1 < pages.length then
        decide (p.links = some { isLastPage := false, currentPage := .ok ((i : Int) + 1) })
      else isTerminal p

/-- The API of a run serving a fixed list of pages: the request for page
`k` (1-based) returns the `k`-th entry; anything out of range errors.
The tag argument is the one the routine passes along to `ListByTag`. -/
def apiOfPages (pages : List PageData) (_tag : String) (opts : ListOptions) :
    Except GoErr (List Droplet × Response) :=
  if opts.page < 1 then .error "page out of range"
  else
    match pages.get? (opts.page.toNat - 1) with
    | some p => .ok (p.droplets, { links := p.links })
    | none => .error "page out of range"

/-- In-order concatenation of the per-page droplet lists. -/
def pagesDroplets : List PageData → List Droplet
  | [] => []
  | p :: ps => p.droplets ++ pagesDroplets ps

/-- A sample droplet, first instance of the spec's §8 scenario: image
slug `ubuntu-20-04` and a public v4 address. -/
def dWeb1 : Droplet :=
  { id := 1, name := "web-1", region := { slug := "nyc3" },
    image := { id := 100, slug := "ubuntu-20-04" },
    size := { slug := "s-1vcpu-1gb", priceHourly := 7, priceMonthly := 5 },
    disk := 25, vcpus := 1, memory := 1024, status := "active", locked := false,
    networks := { v4 := [{ ipAddress := "10.0.0.1", type := "public" }], v6 := [] },
    features := some ["monitoring"], volumeIDs := [], tags := ["web"] }

/-- A sample droplet, second instance of the spec's §8 scenario: empty
image slug, numeric image id 12345, no public v4 interface. -/
def dWeb2 : Droplet :=
  { id := 2, name := "web-2", region := { slug := "nyc3" },
    image := { id := 12345, slug := "" },
    size := { slug := "s-1vcpu-1gb", priceHourly := 7, priceMonthly := 5 },
    disk := 25, vcpus := 1, memory := 1024, status := "active", locked := false,
    networks := { v4 := [{ ipAddress := "10.1.0.9", type := "private" }], v6 := [] },
    features := none, volumeIDs := ["v1", "v1"], tags := [] }

/-- A droplet whose only v4 interface is public but carries an empty
address string: the interface matches the (v4, public) search, yet the
presence test of the source is on the non-emptiness of the found
address. -/
def dEmptyAddr : Droplet :=
  { id := 3, name := "web-3", region := { slug := "nyc3" },
    image := { id := 7, slug := "fedora-39" },
    size := { slug := "s-1vcpu-1gb", priceHourly := 7, priceMonthly := 5 },
    disk := 25, vcpus := 1, memory := 1024, status := "active", locked := false,
    networks := { v4 := [{ ipAddress := "", type := "public" }],
                  v6 := [{ ipAddress := "", type := "public" }] },
    features := some [], volumeIDs := [], tags := [] }

/-- A two-page honest run serving the spec's §8 scenario droplets. -/
def pagesWeb : List PageData :=
  [{ droplets := [dWeb1], links := some { isLastPage := false, currentPage := .ok 1 } },
   { droplets := [dWeb2], links := none }]

/-- A framework store that accepts every write. -/
def fwAccept : Framework := { uniqueId := "fresh-id", setDropletsErr := fun _ => none }

/-- A framework store whose droplets write always fails with `boom`. -/
def fwReject : Framework := { uniqueId := "new-id", setDropletsErr := fun _ => some "boom" }

/-- A store state carrying a previous snapshot identifier. -/
def stOld : Store := { id := some "old-id", droplets := none }

/-- An API whose every page request fails. -/
def apiBoom : String → ListOptions → Except GoErr (List Droplet × Response) :=
  fun _ _ => .error "boom"

/-- An API returning a single page with no instances and no links. -/
def apiEmpty : String → ListOptions → Except GoErr (List Droplet × Response) :=
  fun _ _ => .ok ([], { links := none })

theorem Record.find_append (r r' : Record) (k : String) :
    Record.find (r ++ r') k = ((Record.find r k).orElse fun _ => Record.find r' k) := by
  simp only [Record.find, List.find?_append]
  cases r.find? (fun p => p.1 == k) <;> rfl

theorem Record.find_ite (c : Prop) [Decidable c] (r₁ r₂ : Record) (k : String) :
    Record.find (if c then r₁ else r₂) k =
      if c then Record.find r₁ k else Record.find r₂ k :=
  apply_ite (fun r => Record.find r k) c r₁ r₂

theorem Record.find_nil (k : String) : Record.find [] k = none := rfl

theorem Record.find_cons (p : String × Value) (r : Record) (k : String) :
    Record.find (p :: r) k = if p.1 == k then some p.2 else Record.find r k := by
  simp only [Record.find, List.find?_cons]
  split <;> simp_all

/-- The four address fields of the record, characterised at once: each is
present exactly when the corresponding interface search yields a
non-empty address, and then holds that address (v6 lower-cased). -/
theorem mappingOf_addr_fields (d : Droplet) :
    (Record.find (dropletsMappingOf d) "ipv4_address" =
      if findIPv4AddrByType d "public" ≠ "" then
        some (.str (findIPv4AddrByType d "public")) else none) ∧
    (Record.find (dropletsMappingOf d) "ipv4_address_private" =
      if findIPv4AddrByType d "private" ≠ "" then
        some (.str (findIPv4AddrByType d "private")) else none) ∧
    (Record.find (dropletsMappingOf d) "ipv6_address" =
      if findIPv6AddrByType d "public" ≠ "" then
        some (.str (findIPv6AddrByType d "public").toLower) else none) ∧
    (Record.find (dropletsMappingOf d) "ipv6_address_private" =
      if findIPv6AddrByType d "private" ≠ "" then
        some (.str (findIPv6AddrByType d "private").toLower) else none) := by
  refine ⟨?_, ?_, ?_, ?_⟩
  · rcases hf : d.features with _ | fs <;>
      by_cases h1 : findIPv4AddrByType d "public" = "" <;>
        simp [dropletsMappingOf, hf, h1, Record.find_append, Record.find_ite,
          Record.find_cons, Record.find_nil]
  · rcases hf : d.features with _ | fs <;>
      by_cases h2 : findIPv4AddrByType d "private" = "" <;>
        simp [dropletsMappingOf, hf, h2, Record.find_append, Record.find_ite,
          Record.find_cons, Record.find_nil]
  · rcases hf : d.features with _ | fs <;>
      by_cases h3 : findIPv6AddrByType d "public" = "" <;>
        simp [dropletsMappingOf, hf, h3, Record.find_append, Record.find_ite,
          Record.find_cons, Record.find_nil]
  · rcases hf : d.features with _ | fs <;>
      by_cases h4 : findIPv6AddrByType d "private" = "" <;>
        simp [dropletsMappingOf, hf, h4, Record.find_append, Record.find_ite,
          Record.find_cons, Record.find_nil]

/-- C3: for every instance, the output record's `image` field equals the
image's slug verbatim when the slug is non-empty, and otherwise equals
the decimal string representation of the image's numeric id. -/
theorem claim_c3_image_field (d : Droplet) :
    Record.find (dropletsMappingOf d) "image" =
      some (.str (if d.image.slug = "" then toString d.image.id else d.image.slug)) := by
  rcases hf : d.features with _ | fs <;>
    by_cases h : d.image.slug = "" <;>
      simp [dropletsMappingOf, hf, h, Record.find_append, Record.find_ite,
        Record.find_cons, Record.find_nil]

/-- C4 is false as stated: `dEmptyAddr` has a v4 interface matching
(family=v4, scope=public), yet the `ipv4_address` key is absent from its
output record, because the code tests the non-emptiness of the found
address, not the existence of a matching interface. -/
theorem claim_c4_counterexample :
    (dEmptyAddr.networks.v4.find? (fun n => n.type == "public")).isSome = true ∧
    Record.find (dropletsMappingOf dEmptyAddr) "ipv4_address" = none := by decide

/-- C4 (amended): each of the four address fields is produced from the
first interface of the corresponding (family, scope) search, the two
IPv6 values lower-cased; each key is present in the output record if and
only if that search yields a non-empty address (in particular a matching
interface whose address is empty leaves the key omitted), and is absent
otherwise rather than set to an empty string. -/
theorem claim_c4_addr_fields (d : Droplet) :
    (Record.find (dropletsMappingOf d) "ipv4_address" =
      if findIPv4AddrByType d "public" ≠ "" then
        some (.str (findIPv4AddrByType d "public")) else none) ∧
    (Record.find (dropletsMappingOf d) "ipv4_address_private" =
      if findIPv4AddrByType d "private" ≠ "" then
        some (.str (findIPv4AddrByType d "private")) else none) ∧
    (Record.find (dropletsMappingOf d) "ipv6_address" =
      if findIPv6AddrByType d "public" ≠ "" then
        some (.str (findIPv6AddrByType d "public").toLower) else none) ∧
    (Record.find (dropletsMappingOf d) "ipv6_address_private" =
      if findIPv6AddrByType d "private" ≠ "" then
        some (.str (findIPv6AddrByType d "private").toLower) else none) :=
  mappingOf_addr_fields d

/-- C5: when the feature list is null none of the four feature keys is
present; when it is non-null (even empty) each of the four keys equals
membership of its literal flag name in the list.  Both halves are
captured by mapping over the `Option`. -/
theorem claim_c5_feature_flags (d : Droplet) :
    (Record.find (dropletsMappingOf d) "backups" =
      d.features.map (fun fs => .bool (containsDigitalOceanDropletFeature fs "backups"))) ∧
    (Record.find (dropletsMappingOf d) "ipv6" =
      d.features.map (fun fs => .bool (containsDigitalOceanDropletFeature fs "ipv6"))) ∧
    (Record.find (dropletsMappingOf d) "private_networking" =
      d.features.map
        (fun fs => .bool (containsDigitalOceanDropletFeature fs "private_networking"))) ∧
    (Record.find (dropletsMappingOf d) "monitoring" =
      d.features.map (fun fs => .bool (containsDigitalOceanDropletFeature fs "monitoring"))) := by
  refine ⟨?_, ?_, ?_, ?_⟩ <;>
    rcases hf : d.features with _ | fs <;>
      simp [dropletsMappingOf, hf, Record.find_append, Record.find_ite,
        Record.find_cons, Record.find_nil]

/-- C10: when the first interface matching a (family, scope) pair carries
an empty address string, the corresponding key is still omitted from the
record: the presence test is on the non-emptiness of the found address,
so key absence does not distinguish a missing interface from a matching
interface with an empty address. -/
theorem claim_c10_empty_addr_omitted (d : Droplet) :
    (∀ n, d.networks.v4.find? (fun x => x.type == "public") = some n → n.ipAddress = "" →
      Record.find (dropletsMappingOf d) "ipv4_address" = none) ∧
    (∀ n, d.networks.v4.find? (fun x => x.type == "private") = some n → n.ipAddress = "" →
      Record.find (dropletsMappingOf d) "ipv4_address_private" = none) ∧
    (∀ n, d.networks.v6.find? (fun x => x.type == "public") = some n → n.ipAddress = "" →
      Record.find (dropletsMappingOf d) "ipv6_address" = none) ∧
    (∀ n, d.networks.v6.find? (fun x => x.type == "private") = some n → n.ipAddress = "" →
      Record.find (dropletsMappingOf d) "ipv6_address_private" = none) := by
  obtain ⟨h1, h2, h3, h4⟩ := mappingOf_addr_fields d
  refine ⟨fun n hn he => ?_, fun n hn he => ?_, fun n hn he => ?_, fun n hn he => ?_⟩
  · rw [h1, if_neg]; simp [findIPv4AddrByType, hn, he]
  · rw [h2, if_neg]; simp [findIPv4AddrByType, hn, he]
  · rw [h3, if_neg]; simp [findIPv6AddrByType, hn, he]
  · rw [h4, if_neg]; simp [findIPv6AddrByType, hn, he]

/-- Witness for C10: a concrete droplet whose first public v4 (and v6)
interface has an empty address and whose record omits the key. -/
theorem claim_c10_witness :
    Record.find (dropletsMappingOf dEmptyAddr) "ipv4_address" = none :=
  (claim_c10_empty_addr_omitted dEmptyAddr).1 { ipAddress := "", type := "public" }
    (by decide) rfl

example : Record.find (dropletsMappingOf dWeb1) "image" = some (.str "ubuntu-20-04") := by decide

example : Record.find (dropletsMappingOf dWeb1) "ipv4_address" = some (.str "10.0.0.1") := by
  decide

example : Record.find (dropletsMappingOf dWeb2) "image" = some (.str "12345") := by decide

example : Record.find (dropletsMappingOf dWeb2) "ipv4_address" = none := by decide

example : Record.find (dropletsMappingOf dWeb2) "backups" = none := by decide

example : Record.find (dropletsMappingOf dWeb1) "monitoring" = some (.bool true) := by decide

example :
    fetchLoop
      (apiOfPages
        [{ droplets := [dWeb1],
           links := some { isLastPage := false, currentPage := .ok 1 } },
         { droplets := [dWeb2], links := none }] "web")
      5 { page := 1, perPage := 200 } [] =
      ([{ page := 1, perPage := 200 }, { page := 2, perPage := 200 }], .ok [dWeb1, dWeb2]) := by
  decide


theorem fetchLoop_err_wrapped (api : ListOptions → Except GoErr (List Droplet × Response)) :
    ∀ (fuel : Nat) (opts : ListOptions) (acc : List Droplet) (m : GoErr),
      (fetchLoop api fuel opts acc).2 = .err m →
      ∃ e, m = "Error retrieving droplets: " ++ e := by
  intro fuel
  induction fuel with
  | zero => intro opts acc m h; simp [fetchLoop] at h
  | succ n ih =>
    intro opts acc m h
    rw [fetchLoop] at h
    split at h
    · rename_i e _
      dsimp only at h
      injection h with h'
      exact ⟨e, h'.symm⟩
    · rename_i droplets resp _
      dsimp only at h
      split at h
      · dsimp only at h; exact absurd h (by simp)
      · split at h
        · dsimp only at h; exact absurd h (by simp)
        · split at h
          · rename_i e _
            dsimp only at h
            injection h with h'
            exact ⟨e, h'.symm⟩
          · dsimp only at h
            exact ih _ _ _ h

theorem apiOfPages_eval (pages : List PageData) (tag : String) (k : Nat) (p : PageData)
    (hp : pages.get? k = some p) (pp : Int) :
    apiOfPages pages tag { page := (k : Int) + 1, perPage := pp } =
      .ok (p.droplets, { links := p.links }) := by
  have hp' : pages[k]? = some p := by rw [← List.get?_eq_getElem?]; exact hp
  simp [apiOfPages, hp', show ¬((k : Int) + 1 < 1) by omega,
    show ((k : Int) + 1).toNat - 1 = k by omega]

theorem honestRun_mid (pages : List PageData) (hh : honestRun pages = true) (k : Nat)
    (p : PageData) (hp : pages.get? k = some p) (hk : k + 1 < pages.length) :
    p.links = some { isLastPage := false, currentPage := .ok ((k : Int) + 1) } := by
  have hmem : k ∈ List.range pages.length := List.mem_range.mpr (by omega)
  have hall := List.all_eq_true.mp hh k hmem
  rw [hp] at hall
  simpa [hk] using hall

theorem honestRun_last (pages : List PageData) (hh : honestRun pages = true) (k : Nat)
    (p : PageData) (hp : pages.get? k = some p) (hk : k + 1 = pages.length) :
    isTerminal p = true := by
  have hmem : k ∈ List.range pages.length := List.mem_range.mpr (by omega)
  have hall := List.all_eq_true.mp hh k hmem
  rw [hp] at hall
  simpa [show ¬(k + 1 < pages.length) by omega] using hall

/-- The pagination loop over an honest run of pages, started at any page
`k+1` (1-based): it requests exactly the remaining pages in ascending
order and accumulates their droplet lists in order. -/
theorem fetchLoop_apiOfPages (pages : List PageData) (tag : String)
    (hh : honestRun pages = true) :
    ∀ (fuel k : Nat) (acc : List Droplet), k < pages.length → pages.length - k ≤ fuel →
      fetchLoop (apiOfPages pages tag) fuel { page := (k : Int) + 1, perPage := 200 } acc =
        ((List.range (pages.length - k)).map
            (fun i => { page := ((k + i : Nat) : Int) + 1, perPage := 200 }),
          .ok (acc ++ pagesDroplets (pages.drop k))) := by
  intro fuel
  induction fuel with
  | zero => intro k acc hk hf; omega
  | succ n ih =>
    intro k acc hk hf
    obtain ⟨p, hp⟩ : ∃ q, pages.get? k = some q := by
      rw [List.get?_eq_getElem?]
      exact ⟨pages[k], by simp [List.getElem?_eq_getElem hk]⟩
    rw [fetchLoop, apiOfPages_eval pages tag k p hp]
    dsimp only
    have hdropk : pages.drop k = pages[k] :: pages.drop (k + 1) := List.drop_eq_getElem_cons hk
    have hpk : pages[k] = p := by
      have hg : pages[k]? = some p := by rw [← List.get?_eq_getElem?]; exact hp
      exact (List.getElem?_eq_some_iff.mp hg).2
    by_cases hmid : k + 1 < pages.length
    · rw [honestRun_mid pages hh k p hp hmid]
      dsimp only
      rw [if_neg (by simp)]
      have hcast : ((k : Int) + 1) + 1 = (((k + 1 : Nat)) : Int) + 1 := by push_cast; ring
      rw [hcast, ih (k + 1) (acc ++ p.droplets) hmid (by omega)]
      dsimp only
      rw [Prod.mk.injEq]
      refine ⟨?_, ?_⟩
      · rw [show pages.length - k = (pages.length - (k + 1)) + 1 by omega,
          List.range_succ_eq_map, List.map_cons, List.map_map]
        refine congrArg₂ List.cons (by simp) ?_
        apply List.map_congr_left
        intro i _
        simp only [Function.comp]
        congr 2
        push_cast
        ring
      · rw [hdropk, hpk]
        simp [pagesDroplets, List.append_assoc]
    · have hlastk : k + 1 = pages.length := by omega
      have hterm := honestRun_last pages hh k p hp hlastk
      have hdropk1 : pages.drop (k + 1) = [] := by rw [hlastk]; simp
      rcases hl : p.links with _ | links
      · dsimp only
        rw [Prod.mk.injEq]
        refine ⟨?_, ?_⟩
        · rw [show pages.length - k = 1 by omega, show List.range 1 = [0] from rfl]
          norm_num
        · rw [hdropk, hpk, hdropk1]
          simp [pagesDroplets]
      · dsimp only
        have hlast : links.isLastPage = true := by simpa [isTerminal, hl] using hterm
        rw [if_pos hlast, Prod.mk.injEq]
        refine ⟨?_, ?_⟩
        · rw [show pages.length - k = 1 by omega, show List.range 1 = [0] from rfl]
          norm_num
        · rw [hdropk, hpk, hdropk1]
          simp [pagesDroplets]

theorem pagesDroplets_length (pages : List PageData) :
    (pagesDroplets pages).length = (pages.map (fun p => p.droplets.length)).sum := by
  induction pages with
  | nil => rfl
  | cons p ps ih => simp [pagesDroplets, ih]

theorem foldl_append_map (l : List Droplet) :
    ∀ acc : List Record,
      l.foldl (fun s droplet => s ++ [dropletsMappingOf droplet]) acc =
        acc ++ l.map dropletsMappingOf := by
  induction l with
  | nil => intro acc; simp
  | cons d ds ih => intro acc; simp [ih]


/-- C1: over a run of N honestly numbered pages ending with a terminal
page, the fetch loop starts at page 1 with per-page 200, requests each
subsequent page as the previous response's reported current page plus 1,
issues exactly N page requests in ascending order, and accumulates the
per-page droplet lists in order, so the accumulator length is the sum of
the per-page counts; the read routine's request trace is the same. -/
theorem claim_c1_pagination (pages : List PageData) (tag : String) (fw : Framework)
    (st : Store) (fuel : Nat) (hne : pages ≠ []) (hh : honestRun pages = true)
    (hfuel : pages.length ≤ fuel) :
    fetchLoop (apiOfPages pages tag) fuel { page := 1, perPage := 200 } [] =
      ((List.range pages.length).map
          (fun (i : Nat) => { page := (i : Int) + 1, perPage := 200 }),
        .ok (pagesDroplets pages)) ∧
    (pagesDroplets pages).length = (pages.map (fun p => p.droplets.length)).sum ∧
    (∀ r, dataSourceDigitalOceanDropletsRead (apiOfPages pages) fuel fw st tag = some r →
      r.pageRequests =
        (List.range pages.length).map
          (fun (i : Nat) => { page := (i : Int) + 1, perPage := 200 })) := by
  have hlen : 0 < pages.length := List.length_pos.mpr hne
  have hfe := fetchLoop_apiOfPages pages tag hh fuel 0 [] hlen (by omega)
  rw [show (((0 : Nat) : Int) + 1) = 1 by norm_num] at hfe
  simp only [Nat.sub_zero, List.drop_zero, List.nil_append, Nat.zero_add] at hfe
  refine ⟨hfe, pagesDroplets_length pages, ?_⟩
  intro r hr
  rw [dataSourceDigitalOceanDropletsRead] at hr
  rw [hfe] at hr
  dsimp only at hr
  obtain rfl := Option.some.inj hr.symm
  rfl

/-- Witness for C1: the two-page honest run of the §8 scenario. -/
theorem claim_c1_witness :
    pagesWeb ≠ [] ∧ honestRun pagesWeb = true ∧ pagesWeb.length ≤ 5 ∧
    (fetchLoop (apiOfPages pagesWeb "web") 5 { page := 1, perPage := 200 } [] =
        ((List.range pagesWeb.length).map
            (fun (i : Nat) => { page := (i : Int) + 1, perPage := 200 }),
          .ok (pagesDroplets pagesWeb)) ∧
      (pagesDroplets pagesWeb).length = (pagesWeb.map (fun p => p.droplets.length)).sum ∧
      (∀ r, dataSourceDigitalOceanDropletsRead (apiOfPages pagesWeb) 5 fwAccept stOld "web" =
          some r →
        r.pageRequests =
          (List.range pagesWeb.length).map
            (fun (i : Nat) => { page := (i : Int) + 1, perPage := 200 }))) :=
  ⟨by decide, by decide, by decide,
    claim_c1_pagination pagesWeb "web" fwAccept stOld 5 (by decide) (by decide) (by decide)⟩

/-- C2: if any page request (or current-page parse) fails, the error is
wrapped in the descriptive message, the routine returns it, the store is
left as it was on entry, no store operation is invoked and no droplets
are returned. -/
theorem claim_c2_error_abort
    (api : String → ListOptions → Except GoErr (List Droplet × Response))
    (tag : String) (fuel : Nat) (fw : Framework) (st : Store) (m : GoErr)
    (h : (fetchLoop (api tag) fuel { page := 1, perPage := 200 } []).2 = .err m) :
    (∃ e, m = "Error retrieving droplets: " ++ e) ∧
    dataSourceDigitalOceanDropletsRead api fuel fw st tag =
      some { store := st, storeOps := [],
             pageRequests := (fetchLoop (api tag) fuel { page := 1, perPage := 200 } []).1,
             err := some m } := by
  refine ⟨fetchLoop_err_wrapped (api tag) fuel _ _ m h, ?_⟩
  rcases hfe : fetchLoop (api tag) fuel { page := 1, perPage := 200 } [] with ⟨tr, out⟩
  rw [hfe] at h
  dsimp only at h
  subst h
  simp [dataSourceDigitalOceanDropletsRead, hfe]

/-- Witness for C2: an API whose first page request fails. -/
theorem claim_c2_witness :
    ((fetchLoop (apiBoom "web") 1 { page := 1, perPage := 200 } []).2 =
        .err "Error retrieving droplets: boom") ∧
    ((∃ e, ("Error retrieving droplets: boom" : GoErr) = "Error retrieving droplets: " ++ e) ∧
      dataSourceDigitalOceanDropletsRead apiBoom 1 fwAccept stOld "web" =
        some { store := stOld, storeOps := [],
               pageRequests := (fetchLoop (apiBoom "web") 1 { page := 1, perPage := 200 } []).1,
               err := some "Error retrieving droplets: boom" }) :=
  ⟨by decide, claim_c2_error_abort apiBoom "web" 1 fwAccept stOld _ (by decide)⟩

/-- C6: a non-empty tag for which the API returns a single page with no
instances and no links yields an empty stored droplets list and no
error. -/
theorem claim_c6_zero_instances
    (api : String → ListOptions → Except GoErr (List Droplet × Response))
    (tag : String) (fuel : Nat) (fw : Framework) (st : Store)
    (htag : tag ≠ "")
    (hapi : api tag { page := 1, perPage := 200 } = .ok ([], { links := none }))
    (hfuel : 1 ≤ fuel) (hset : fw.setDropletsErr [] = none) :
    dataSourceDigitalOceanDropletsRead api fuel fw st tag =
      some { store := { st with id := some fw.uniqueId, droplets := some [] },
             storeOps := [.setId fw.uniqueId, .setDroplets []],
             pageRequests := [{ page := 1, perPage := 200 }],
             err := none } := by
  obtain ⟨n, rfl⟩ : ∃ n, fuel = n + 1 := ⟨fuel - 1, by omega⟩
  have hfe : fetchLoop (api tag) (n + 1) { page := 1, perPage := 200 } [] =
      ([{ page := 1, perPage := 200 }], .ok []) := by
    rw [fetchLoop, hapi]
    rfl
  simp [dataSourceDigitalOceanDropletsRead, hfe, dropletsDecriptionAttributes, hset]

/-- Witness for C6: tag `web` against the empty single-page API. -/
theorem claim_c6_witness :
    ("web" : String) ≠ "" ∧
    apiEmpty "web" { page := 1, perPage := 200 } = .ok ([], { links := none }) ∧
    1 ≤ 1 ∧ fwAccept.setDropletsErr [] = none ∧
    dataSourceDigitalOceanDropletsRead apiEmpty 1 fwAccept stOld "web" =
      some { store := { stOld with id := some fwAccept.uniqueId, droplets := some [] },
             storeOps := [.setId fwAccept.uniqueId, .setDroplets []],
             pageRequests := [{ page := 1, perPage := 200 }],
             err := none } :=
  ⟨by decide, rfl, by decide, rfl,
    claim_c6_zero_instances apiEmpty "web" 1 fwAccept stOld (by decide) rfl (by decide) rfl⟩

/-- C7: on a successful run the stored OutputList is exactly the per-page
droplet lists concatenated in API order and mapped element-wise through
the per-instance flattening function, with no reordering, insertion or
removal. -/
theorem claim_c7_flatten_map (pages : List PageData) (tag : String) (fw : Framework)
    (st : Store) (fuel : Nat) (hne : pages ≠ []) (hh : honestRun pages = true)
    (hfuel : pages.length ≤ fuel)
    (hset : fw.setDropletsErr ((pagesDroplets pages).map dropletsMappingOf) = none) :
    dataSourceDigitalOceanDropletsRead (apiOfPages pages) fuel fw st tag =
      some { store := { id := some fw.uniqueId,
                        droplets := some ((pagesDroplets pages).map dropletsMappingOf) },
             storeOps := [.setId fw.uniqueId,
                          .setDroplets ((pagesDroplets pages).map dropletsMappingOf)],
             pageRequests :=
               (List.range pages.length).map
                 (fun (i : Nat) => { page := (i : Int) + 1, perPage := 200 }),
             err := none } := by
  have hlen : 0 < pages.length := List.length_pos.mpr hne
  have hfe := fetchLoop_apiOfPages pages tag hh fuel 0 [] hlen (by omega)
  rw [show (((0 : Nat) : Int) + 1) = 1 by norm_num] at hfe
  simp only [Nat.sub_zero, List.drop_zero, List.nil_append, Nat.zero_add] at hfe
  simp only [dataSourceDigitalOceanDropletsRead, hfe]
  simp only [dropletsDecriptionAttributes, foldl_append_map, List.nil_append, hset]

/-- Witness for C7: the two-page §8 scenario run through the full
routine. -/
theorem claim_c7_witness :
    pagesWeb ≠ [] ∧ honestRun pagesWeb = true ∧ pagesWeb.length ≤ 5 ∧
    fwAccept.setDropletsErr ((pagesDroplets pagesWeb).map dropletsMappingOf) = none ∧
    dataSourceDigitalOceanDropletsRead (apiOfPages pagesWeb) 5 fwAccept stOld "web" =
      some { store := { id := some fwAccept.uniqueId,
                        droplets := some ((pagesDroplets pagesWeb).map dropletsMappingOf) },
             storeOps := [.setId fwAccept.uniqueId,
                          .setDroplets ((pagesDroplets pagesWeb).map dropletsMappingOf)],
             pageRequests :=
               (List.range pagesWeb.length).map
                 (fun (i : Nat) => { page := (i : Int) + 1, perPage := 200 }),
             err := none } :=
  ⟨by decide, by decide, by decide, rfl,
    claim_c7_flatten_map pagesWeb "web" fwAccept stOld 5 (by decide) (by decide) (by decide) rfl⟩

/-- C8: when the droplets store write fails, the routine returns exactly
the store's error, unwrapped and untransformed. -/
theorem claim_c8_set_error_verbatim
    (api : String → ListOptions → Except GoErr (List Droplet × Response))
    (tag : String) (fuel : Nat) (fw : Framework) (st : Store)
    (tr : List ListOptions) (dl : List Droplet) (e : GoErr)
    (hfe : fetchLoop (api tag) fuel { page := 1, perPage := 200 } [] = (tr, .ok dl))
    (hset : fw.setDropletsErr (dl.map dropletsMappingOf) = some e) :
    dataSourceDigitalOceanDropletsRead api fuel fw st tag =
      some { store := { st with id := some fw.uniqueId },
             storeOps := [.setId fw.uniqueId, .setDroplets (dl.map dropletsMappingOf)],
             pageRequests := tr, err := some e } := by
  simp [dataSourceDigitalOceanDropletsRead, hfe, dropletsDecriptionAttributes,
    foldl_append_map, hset]

/-- Witness for C8: a rejecting store returns its own error `boom`
verbatim. -/
theorem claim_c8_witness :
    fetchLoop (apiEmpty "web") 1 { page := 1, perPage := 200 } [] =
      ([{ page := 1, perPage := 200 }], .ok []) ∧
    fwReject.setDropletsErr (([] : List Droplet).map dropletsMappingOf) = some "boom" ∧
    dataSourceDigitalOceanDropletsRead apiEmpty 1 fwReject stOld "web" =
      some { store := { stOld with id := some fwReject.uniqueId },
             storeOps := [.setId fwReject.uniqueId,
                          .setDroplets (([] : List Droplet).map dropletsMappingOf)],
             pageRequests := [{ page := 1, perPage := 200 }], err := some "boom" } :=
  ⟨by decide, rfl,
    claim_c8_set_error_verbatim apiEmpty "web" 1 fwReject stOld
      [{ page := 1, perPage := 200 }] [] "boom" (by decide) rfl⟩

/-- C9 is false as stated: on a store-write failure the routine has
already refreshed the snapshot identifier before the failing write, so
the output state is not left unchanged — here the id moves from
`old-id` to `new-id` although the run fails with `boom`. -/
theorem claim_c9_counterexample :
    dataSourceDigitalOceanDropletsRead apiEmpty 1 fwReject stOld "web" =
      some { store := { id := some "new-id", droplets := none },
             storeOps := [.setId "new-id", .setDroplets []],
             pageRequests := [{ page := 1, perPage := 200 }],
             err := some "boom" } ∧
    stOld.id = some "old-id" ∧ (some "new-id" : Option String) ≠ some "old-id" := by
  refine ⟨by decide, rfl, by decide⟩

/-- C9 (amended): every failing run fails as a whole and never commits
the droplets output; a page-request or parse failure leaves the store
fully untouched with no store operation invoked, while a store-write
failure leaves the droplets value unchanged but occurs after the
snapshot identifier has already been refreshed by the routine. -/
theorem claim_c9_failure_no_commit
    (api : String → ListOptions → Except GoErr (List Droplet × Response))
    (tag : String) (fuel : Nat) (fw : Framework) (st : Store) :
    (∀ m, (fetchLoop (api tag) fuel { page := 1, perPage := 200 } []).2 = .err m →
      ∃ r, dataSourceDigitalOceanDropletsRead api fuel fw st tag = some r ∧
        r.err = some m ∧ r.store = st ∧ r.storeOps = []) ∧
    (∀ tr dl e, fetchLoop (api tag) fuel { page := 1, perPage := 200 } [] = (tr, .ok dl) →
      fw.setDropletsErr (dl.map dropletsMappingOf) = some e →
      ∃ r, dataSourceDigitalOceanDropletsRead api fuel fw st tag = some r ∧
        r.err = some e ∧ r.store.droplets = st.droplets ∧ r.store.id = some fw.uniqueId) := by
  constructor
  · intro m h
    rcases hfe : fetchLoop (api tag) fuel { page := 1, perPage := 200 } [] with ⟨tr, out⟩
    rw [hfe] at h
    dsimp only at h
    subst h
    refine ⟨{ store := st, storeOps := [], pageRequests := tr, err := some m },
      ?_, rfl, rfl, rfl⟩
    simp [dataSourceDigitalOceanDropletsRead, hfe]
  · intro tr dl e hfe hset
    refine ⟨{ store := { st with id := some fw.uniqueId },
              storeOps := [.setId fw.uniqueId, .setDroplets (dl.map dropletsMappingOf)],
              pageRequests := tr, err := some e }, ?_, rfl, rfl, rfl⟩
    simp [dataSourceDigitalOceanDropletsRead, hfe, dropletsDecriptionAttributes,
      foldl_append_map, hset]

/-- Witness for C9 (amended): a failing page request commits nothing. -/
theorem claim_c9_witness :
    ((fetchLoop (apiBoom "web") 1 { page := 1, perPage := 200 } []).2 =
        .err "Error retrieving droplets: boom") ∧
    (∃ r, dataSourceDigitalOceanDropletsRead apiBoom 1 fwAccept stOld "web" = some r ∧
      r.err = some "Error retrieving droplets: boom" ∧ r.store = stOld ∧ r.storeOps = []) :=
  ⟨by decide,
    (claim_c9_failure_no_commit apiBoom "web" 1 fwAccept stOld).1
      "Error retrieving droplets: boom" (by decide)⟩

end DO
